import Mathlib

/-!
Verification of the response-normalization and method-dispatch layer of the
`logseq-mcp` client (`src/logseq_mcp/client/logseq_client.py`).

The remote endpoint returns an arbitrary JSON value (`RawResponse`); each
façade operation of `LogseqAPIClient` normalizes it.  We embed JSON values as
an inductive type, translate each operation's normalization and request
construction from the Python source, and prove the specified properties.

Conventions of the embedding:
* Python `None` and JSON `null` are the same value, `Json.null` (this mirrors
  Python, where a JSON `null` in a parsed response *is* `None`, so "the
  function returns `None`" and "the function returns the null payload"
  are indistinguishable).
* A Python `dict` is `Json.obj` over an association list with the first
  binding for a key the one `dict.get` sees (parsed JSON dicts have unique
  keys; the embedding does not depend on uniqueness).
* `dict.get(k, d)` is `Json.getD`, `dict.get(k)` is `Json.get`
  (defaulting to `Json.null`, i.e. Python `None`), `k in d` is `Json.hasKey`.
-/

/-- A JSON value, the type of `RawResponse`. -/
inductive Json where
  | null : Json
  | bool : Bool → Json
  | num : Int → Json
  | str : String → Json
  | arr : List Json → Json
  | obj : List (String × Json) → Json

/-- Python `x is None`. -/
def Json.isNull : Json → Bool
  | .null => true
  | _ => false

/-- First binding for `key` in an association list (Python dict lookup). -/
def lookupKey : List (String × Json) → String → Option Json
  | [], _ => none
  | (k, v) :: rest, key => if k = key then some v else lookupKey rest key

/-- Python `isinstance(x, list)`. -/
def Json.isList : Json → Bool
  | .arr _ => true
  | _ => false

/-- Python `isinstance(x, dict)`. -/
def Json.isDict : Json → Bool
  | .obj _ => true
  | _ => false

/-- Python `key in x` for a dict (`false` on every non-dict). -/
def Json.hasKey : Json → String → Bool
  | .obj fields, key => (lookupKey fields key).isSome
  | _, _ => false

/-- Python `x.get(key, default)` on a dict (`default` on every non-dict). -/
def Json.getD : Json → String → Json → Json
  | .obj fields, key, default => (lookupKey fields key).getD default
  | _, _, default => default

/-- Python `x.get(key)`: missing keys give `None`, i.e. `Json.null`. -/
def Json.get (j : Json) (key : String) : Json :=
  j.getD key Json.null

/-- Whether `x` is a dict or `None` (`get_page`/`get_block` declare `Optional[Dict]`). -/
def Json.isObjOrNull : Json → Bool
  | .null => true
  | .obj _ => true
  | _ => false

/-! Transport layer: `LogseqAPIClient.call_api`.

The transport outcome of one HTTP POST: either a response arrived, with a
status code and a JSON-parsed body, or the `requests` call raised a
`RequestException` (connection refused, timeout, redirect loop, …) carrying
a message `str(e)`. -/

/-- Outcome of the HTTP POST inside `call_api`. -/
inductive TransportOutcome where
  | http (status : Nat) (body : Json)
  | exn (message : String)

/-- The sentinel failure object `{"success": False, "error": msg}` built by
`call_api` on transport and authentication failures. -/
def sentinel (message : String) : Json :=
  Json.obj [("success", Json.bool false), ("error", Json.str message)]

/-- The hint message of the 401 sentinel in `call_api`. -/
def unauthorizedMessage : String :=
  "401 Unauthorized: Please provide a valid token in LOGSEQ_API_TOKEN environment variable"

/-- Whether `requests.Response.raise_for_status` raises: it raises `HTTPError` exactly for
4xx client errors and 5xx server errors (documented behavior of the
`requests` library). -/
def raiseForStatusRaises (status : Nat) : Bool :=
  400 ≤ status && status < 600

/-- The message `str(e)` of the `HTTPError` raised by `raise_for_status`. -/
def httpErrorMessage (status : Nat) : String :=
  toString status ++ " Error for url"

/-- Embedding of `LogseqAPIClient.call_api` as a function of the transport outcome:
status 401 gives the 401 sentinel; a status `raise_for_status` raises on
gives a sentinel with the exception's message (the `HTTPError` is a
`RequestException`, so the `except` clause catches it); any other status
returns the parsed body verbatim; a raised `RequestException` gives a
sentinel with its message. -/
def call_api_result : TransportOutcome → Json
  | .http status body =>
    if status = 401 then sentinel unauthorizedMessage
    else if raiseForStatusRaises status then sentinel (httpErrorMessage status)
    else body
  | .exn message => sentinel message

/-! Façade normalizers, one per operation, from the Python source. -/

/-- Normalization of `LogseqAPIClient.get_all_pages`: `if isinstance(response, list): return
response` then `return response.get("result", []) if isinstance(response,
dict) else []`. -/
def get_all_pages_normalize (response : Json) : Json :=
  if response.isList then response
  else if response.isDict then response.getD "result" (Json.arr [])
  else Json.arr []

/-- Normalization of `LogseqAPIClient.get_page_blocks`: same normalization as
`get_all_pages`. -/
def get_page_blocks_normalize (response : Json) : Json :=
  if response.isList then response
  else if response.isDict then response.getD "result" (Json.arr [])
  else Json.arr []

/-- Normalization of `LogseqAPIClient.get_page_linked_references`: same normalization as
`get_all_pages`. -/
def get_page_linked_references_normalize (response : Json) : Json :=
  if response.isList then response
  else if response.isDict then response.getD "result" (Json.arr [])
  else Json.arr []

/-- Normalization of `LogseqAPIClient.get_page`: `None` gives `None`; on a dict, `"result"`
is checked first (returning `response.get("result")`), then `"error"`
(returning `None`), else the dict itself; any other value is returned
unchanged. -/
def get_page_normalize (response : Json) : Json :=
  if response.isNull then Json.null
  else if response.isDict then
    if response.hasKey "result" then response.get "result"
    else if response.hasKey "error" then Json.null
    else response
  else response

/-- Normalization of `LogseqAPIClient.get_block`: `None` gives `None`; on a dict, `"error"`
is checked first (returning `None`), then `"result"` (returning
`response.get("result")`), else the dict itself; any other value is
returned unchanged. -/
def get_block_normalize (response : Json) : Json :=
  if response.isNull then Json.null
  else if response.isDict then
    if response.hasKey "error" then Json.null
    else if response.hasKey "result" then response.get "result"
    else response
  else response

/-- Normalization of `LogseqAPIClient.search_blocks`: `None` gives `[]`; on a dict the keys
`"blocks"`, `"result"`, `"error"` are tried in that order (a dict with none
of them falls through); a bare list is returned unchanged; everything else
gives `[]`. -/
def search_blocks_normalize (response : Json) : Json :=
  if response.isNull then Json.arr []
  else if response.isDict && response.hasKey "blocks" then
    response.getD "blocks" (Json.arr [])
  else if response.isDict && response.hasKey "result" then
    response.getD "result" (Json.arr [])
  else if response.isDict && response.hasKey "error" then Json.arr []
  else if response.isList then response
  else Json.arr []

/-- Normalization of `LogseqAPIClient.get_block_properties`: a dict containing `"result"`
gives `response.get("result", {})`; any other dict is returned unchanged;
a non-dict gives `{}`. -/
def get_block_properties_normalize (response : Json) : Json :=
  if response.isDict && response.hasKey "result" then
    response.getD "result" (Json.obj [])
  else if response.isDict then response
  else Json.obj []

/-- The normalization shared by the mutation operations: `if
isinstance(response, dict) and "result" in response: return
response.get("result")`, else `return response`.  Each operation's
normalizer below is this code, translated per operation. -/
def create_page_normalize (response : Json) : Json :=
  if response.isDict && response.hasKey "result" then response.get "result"
  else response

/-- Normalization of `LogseqAPIClient.delete_page` (same code as
`create_page`). -/
def delete_page_normalize (response : Json) : Json :=
  if response.isDict && response.hasKey "result" then response.get "result"
  else response

/-- Normalization of `LogseqAPIClient.create_block` (same code as
`create_page`). -/
def create_block_normalize (response : Json) : Json :=
  if response.isDict && response.hasKey "result" then response.get "result"
  else response

/-- Normalization of `LogseqAPIClient.update_block` (same code as
`create_page`). -/
def update_block_normalize (response : Json) : Json :=
  if response.isDict && response.hasKey "result" then response.get "result"
  else response

/-- Normalization of `LogseqAPIClient.insert_block` (same code as
`create_page`). -/
def insert_block_normalize (response : Json) : Json :=
  if response.isDict && response.hasKey "result" then response.get "result"
  else response

/-- Normalization of `LogseqAPIClient.move_block` (same code as
`create_page`). -/
def move_block_normalize (response : Json) : Json :=
  if response.isDict && response.hasKey "result" then response.get "result"
  else response

/-- Normalization of `LogseqAPIClient.remove_block` (same code as
`create_page`). -/
def remove_block_normalize (response : Json) : Json :=
  if response.isDict && response.hasKey "result" then response.get "result"
  else response

/-! Request builders: the `(method, args)` pair each operation passes to
`call_api`.  An optional `properties` dict is modelled as
`Option (List (String × Json))`; Python's `if properties:` is true exactly
for a present, non-empty dict. -/

/-- Python truthiness of the `properties: Optional[Dict]` argument:
`None` and `{}` are falsy, a non-empty dict is truthy. -/
def propsTruthy : Option (List (String × Json)) → Bool
  | none => false
  | some props => !props.isEmpty

/-- Request built by `LogseqAPIClient.create_page`: `params = [page_name]`, appending
`properties` only when truthy; method `"logseq.Editor.createPage"`. -/
def create_page_request (page_name : String)
    (properties : Option (List (String × Json))) : String × List Json :=
  ("logseq.Editor.createPage",
    if propsTruthy properties then
      [Json.str page_name, Json.obj (properties.getD [])]
    else [Json.str page_name])

/-- Request built by `LogseqAPIClient.create_block`: `params = [page_name, content]`,
appending `properties` only when truthy; method
`"logseq.Editor.appendBlockInPage"`. -/
def create_block_request (page_name content : String)
    (properties : Option (List (String × Json))) : String × List Json :=
  ("logseq.Editor.appendBlockInPage",
    if propsTruthy properties then
      [Json.str page_name, Json.str content, Json.obj (properties.getD [])]
    else [Json.str page_name, Json.str content])

/-- Request built by `LogseqAPIClient.update_block`: `params = [block_id, content]`,
appending `properties` only when truthy; method
`"logseq.Editor.updateBlock"`. -/
def update_block_request (block_id content : String)
    (properties : Option (List (String × Json))) : String × List Json :=
  ("logseq.Editor.updateBlock",
    if propsTruthy properties then
      [Json.str block_id, Json.str content, Json.obj (properties.getD [])]
    else [Json.str block_id, Json.str content])

/-- Request built by `LogseqAPIClient.insert_block`: `params = [parent_block_id, content]`,
appending `properties` only when truthy; the method is
`"logseq.Editor.prependBlock"` when `before` else
`"logseq.Editor.insertBlock"`. -/
def insert_block_request (parent_block_id content : String)
    (properties : Option (List (String × Json))) (before : Bool) :
    String × List Json :=
  (if before then "logseq.Editor.prependBlock" else "logseq.Editor.insertBlock",
    if propsTruthy properties then
      [Json.str parent_block_id, Json.str content, Json.obj (properties.getD [])]
    else [Json.str parent_block_id, Json.str content])

/-- Request built by `LogseqAPIClient.move_block`: a single structured argument
`{"srcUUID": block_id, "targetUUID": target_block_id, "isChild": as_child}`
in a one-element args list; method `"logseq.Editor.moveBlock"`. -/
def move_block_request (block_id target_block_id : String)
    (as_child : Bool) : String × List Json :=
  ("logseq.Editor.moveBlock",
    [Json.obj [("srcUUID", Json.str block_id),
               ("targetUUID", Json.str target_block_id),
               ("isChild", Json.bool as_child)]])

/-! Specification-side normalization policies.  Each is written from the
amended policy wording and compared pointwise against the source-derived
normalizer above. -/

/-- Amended list-read policy: a bare list is returned unchanged; a mapping
yields the value of its `"result"` key unchanged whatever that value's
shape, or `[]` when the key is absent; every other value yields `[]`. -/
def listReadPolicy (r : Json) : Json :=
  match r with
  | .arr xs => .arr xs
  | .obj fields => (lookupKey fields "result").getD (.arr [])
  | _ => .arr []

/-- Amended `get_page` policy: `null` yields absence; a mapping is tested
for `"result"` first (yielding that value, even when both `"result"` and
`"error"` are present), then for `"error"` (yielding absence), else it is
the direct payload; any other value is passed through. -/
def getPagePolicy (r : Json) : Json :=
  match r with
  | .null => .null
  | .obj fields =>
    (match lookupKey fields "result" with
     | some v => v
     | none =>
       if (lookupKey fields "error").isSome then Json.null else .obj fields)
  | other => other

/-- Amended `get_block` policy: `null` yields absence; a mapping is tested
for `"error"` first (yielding absence, even when both `"error"` and
`"result"` are present), then for `"result"` (yielding that value), else it
is the direct payload; any other value is passed through. -/
def getBlockPolicy (r : Json) : Json :=
  match r with
  | .null => .null
  | .obj fields =>
    if (lookupKey fields "error").isSome then Json.null
    else
      match lookupKey fields "result" with
      | some v => v
      | none => .obj fields
  | other => other

/-! Theorems, one per claim. -/

/-- C1, counterexample: `get_all_pages` on the mapping `{"result": 5}`
returns `5` itself — not the empty list the claim requires for a `result`
value that is not a list, and not a list at all. -/
theorem get_all_pages_nonlist_result_passthrough :
    get_all_pages_normalize (Json.obj [("result", Json.num 5)]) = Json.num 5 ∧
    (get_all_pages_normalize (Json.obj [("result", Json.num 5)])).isList = false := by
  exact ⟨rfl, rfl⟩

/-- C1 (amended): every list-shaped operation (`get_all_pages`,
`get_page_blocks`, `get_page_linked_references`) realizes `listReadPolicy`:
a bare list unchanged; a mapping's `"result"` value unchanged whatever its
shape (so not necessarily a list), or `[]` when the key is absent; an
`error` mapping, `null`, and every other non-list value yield `[]`. -/
theorem list_read_ops_follow_policy (r : Json) :
    get_all_pages_normalize r = listReadPolicy r ∧
    get_page_blocks_normalize r = listReadPolicy r ∧
    get_page_linked_references_normalize r = listReadPolicy r := by
  cases r <;> exact ⟨rfl, rfl, rfl⟩

/-- C2, counterexample: on the mapping `{"result": 1, "error": "boom"}`,
which contains an `error` key, `get_page` returns `1`, not absence —
`get_page` tests `"result"` before `"error"`. -/
theorem get_page_result_beats_error :
    get_page_normalize (Json.obj [("result", Json.num 1), ("error", Json.str "boom")])
      = Json.num 1 ∧
    get_page_normalize (Json.obj [("result", Json.num 1), ("error", Json.str "boom")])
      ≠ Json.null := by
  refine ⟨rfl, ?_⟩
  intro h
  exact Json.noConfusion h

/-- C2 (amended): `get_page` realizes `getPagePolicy` (`"result"` tested
before `"error"`) and `get_block` realizes `getBlockPolicy` (`"error"`
tested before `"result"`): on a mapping containing both keys `get_page`
returns the `result` value while `get_block` yields absence; on `null` or a
mapping with only `error`, both yield absence; a mapping with `result`
yields that value (even `null`); any other mapping is the direct payload,
returned unchanged. -/
theorem get_page_get_block_follow_policy (r : Json) :
    get_page_normalize r = getPagePolicy r ∧
    get_block_normalize r = getBlockPolicy r := by
  cases r with
  | obj fields =>
    constructor
    · show get_page_normalize (Json.obj fields) = getPagePolicy (Json.obj fields)
      cases hr : lookupKey fields "result" with
      | some v =>
        simp [get_page_normalize, getPagePolicy, Json.isNull, Json.isDict,
          Json.hasKey, Json.get, Json.getD, hr]
      | none =>
        cases he : lookupKey fields "error" with
        | some w =>
          simp [get_page_normalize, getPagePolicy, Json.isNull, Json.isDict,
            Json.hasKey, Json.get, Json.getD, hr, he]
        | none =>
          simp [get_page_normalize, getPagePolicy, Json.isNull, Json.isDict,
            Json.hasKey, Json.get, Json.getD, hr, he]
    · show get_block_normalize (Json.obj fields) = getBlockPolicy (Json.obj fields)
      cases he : lookupKey fields "error" with
      | some w =>
        simp [get_block_normalize, getBlockPolicy, Json.isNull, Json.isDict,
          Json.hasKey, Json.get, Json.getD, he]
      | none =>
        cases hr : lookupKey fields "result" with
        | some v =>
          simp [get_block_normalize, getBlockPolicy, Json.isNull, Json.isDict,
            Json.hasKey, Json.get, Json.getD, hr, he]
        | none =>
          simp [get_block_normalize, getBlockPolicy, Json.isNull, Json.isDict,
            Json.hasKey, Json.get, Json.getD, hr, he]
  | null => exact ⟨rfl, rfl⟩
  | bool b => exact ⟨rfl, rfl⟩
  | num n => exact ⟨rfl, rfl⟩
  | str s => exact ⟨rfl, rfl⟩
  | arr xs => exact ⟨rfl, rfl⟩

/-- C3: `search_blocks` tries the wrapper keys in order.  A mapping with
`"blocks"` yields that value, even when a `"result"` key is simultaneously
present; a mapping with `"result"` and no `"blocks"` yields that value;
`null`, and a mapping whose only wrapper key is `"error"`, yield `[]`; a
bare list is returned unchanged. -/
theorem search_blocks_wrapper_precedence (fields : List (String × Json))
    (L : List Json) :
    (∀ B, lookupKey fields "blocks" = some B →
      search_blocks_normalize (Json.obj fields) = B) ∧
    (∀ R, lookupKey fields "blocks" = none → lookupKey fields "result" = some R →
      search_blocks_normalize (Json.obj fields) = R) ∧
    (lookupKey fields "blocks" = none → lookupKey fields "result" = none →
      (lookupKey fields "error").isSome = true →
      search_blocks_normalize (Json.obj fields) = Json.arr []) ∧
    search_blocks_normalize Json.null = Json.arr [] ∧
    search_blocks_normalize (Json.arr L) = Json.arr L := by
  refine ⟨?_, ?_, ?_, rfl, rfl⟩
  · intro B hb
    simp [search_blocks_normalize, Json.isNull, Json.isDict, Json.hasKey,
      Json.getD, hb]
  · intro R hb hr
    simp [search_blocks_normalize, Json.isNull, Json.isDict, Json.hasKey,
      Json.getD, hb, hr]
  · intro hb hr he
    simp [search_blocks_normalize, Json.isNull, Json.isDict, Json.isList,
      Json.hasKey, Json.getD, hb, hr, he]

/-- C3, witness: on `{"blocks": 3, "result": 4}` the `blocks` value wins. -/
theorem search_blocks_wrapper_precedence_witness :
    search_blocks_normalize
      (Json.obj [("blocks", Json.num 3), ("result", Json.num 4)]) = Json.num 3 :=
  (search_blocks_wrapper_precedence
    [("blocks", Json.num 3), ("result", Json.num 4)] []).1 (Json.num 3) rfl

/-- C4: every mutation operation (`create_page`, `delete_page`,
`create_block`, `update_block`, `insert_block`, `move_block`,
`remove_block`) returns the `"result"` value of a mapping containing that
key and otherwise returns the RawResponse unchanged — in particular a
sentinel failure object is returned verbatim, not absorbed. -/
theorem mutation_normalization_surfaces_failures (r : Json)
    (fields : List (String × Json)) (m : String) :
    (∀ v, lookupKey fields "result" = some v →
      create_page_normalize (Json.obj fields) = v ∧
      delete_page_normalize (Json.obj fields) = v ∧
      create_block_normalize (Json.obj fields) = v ∧
      update_block_normalize (Json.obj fields) = v ∧
      insert_block_normalize (Json.obj fields) = v ∧
      move_block_normalize (Json.obj fields) = v ∧
      remove_block_normalize (Json.obj fields) = v) ∧
    (lookupKey fields "result" = none →
      create_page_normalize (Json.obj fields) = Json.obj fields ∧
      delete_page_normalize (Json.obj fields) = Json.obj fields ∧
      create_block_normalize (Json.obj fields) = Json.obj fields ∧
      update_block_normalize (Json.obj fields) = Json.obj fields ∧
      insert_block_normalize (Json.obj fields) = Json.obj fields ∧
      move_block_normalize (Json.obj fields) = Json.obj fields ∧
      remove_block_normalize (Json.obj fields) = Json.obj fields) ∧
    (r.isDict = false →
      create_page_normalize r = r ∧
      delete_page_normalize r = r ∧
      create_block_normalize r = r ∧
      update_block_normalize r = r ∧
      insert_block_normalize r = r ∧
      move_block_normalize r = r ∧
      remove_block_normalize r = r) ∧
    (create_page_normalize (sentinel m) = sentinel m ∧
      delete_page_normalize (sentinel m) = sentinel m ∧
      create_block_normalize (sentinel m) = sentinel m ∧
      update_block_normalize (sentinel m) = sentinel m ∧
      insert_block_normalize (sentinel m) = sentinel m ∧
      move_block_normalize (sentinel m) = sentinel m ∧
      remove_block_normalize (sentinel m) = sentinel m) := by
  refine ⟨?_, ?_, ?_, ?_⟩
  · intro v hv
    refine ⟨?_, ?_, ?_, ?_, ?_, ?_, ?_⟩ <;>
      simp [create_page_normalize, delete_page_normalize, create_block_normalize,
        update_block_normalize, insert_block_normalize, move_block_normalize,
        remove_block_normalize, Json.isDict, Json.hasKey, Json.get, Json.getD, hv]
  · intro hv
    refine ⟨?_, ?_, ?_, ?_, ?_, ?_, ?_⟩ <;>
      simp [create_page_normalize, delete_page_normalize, create_block_normalize,
        update_block_normalize, insert_block_normalize, move_block_normalize,
        remove_block_normalize, Json.isDict, Json.hasKey, Json.get, Json.getD, hv]
  · intro hd
    refine ⟨?_, ?_, ?_, ?_, ?_, ?_, ?_⟩ <;>
      simp [create_page_normalize, delete_page_normalize, create_block_normalize,
        update_block_normalize, insert_block_normalize, move_block_normalize,
        remove_block_normalize, hd]
  · exact ⟨rfl, rfl, rfl, rfl, rfl, rfl, rfl⟩

/-- C4, witness: `update_block` unwraps `{"result": 2}` to `2`, and
`remove_block` returns the sentinel `{"success": false, "error": "boom"}`
verbatim. -/
theorem mutation_normalization_surfaces_failures_witness :
    update_block_normalize (Json.obj [("result", Json.num 2)]) = Json.num 2 ∧
    remove_block_normalize (sentinel "boom") = sentinel "boom" :=
  ⟨((mutation_normalization_surfaces_failures Json.null
      [("result", Json.num 2)] "boom").1 (Json.num 2) rfl).2.2.2.1,
   ((mutation_normalization_surfaces_failures Json.null
      [("result", Json.num 2)] "boom").2.2.2).2.2.2.2.2.2⟩

/-- C5: for every parent id, content and optional properties,
`insert_block` with `before = true` uses the remote method
`logseq.Editor.prependBlock` and with `before = false` the distinct method
`logseq.Editor.insertBlock`, while the argument list sent is identical in
content and order in both cases. -/
theorem insert_block_method_dispatch (parent_block_id content : String)
    (properties : Option (List (String × Json))) :
    (insert_block_request parent_block_id content properties true).1
      = "logseq.Editor.prependBlock" ∧
    (insert_block_request parent_block_id content properties false).1
      = "logseq.Editor.insertBlock" ∧
    (insert_block_request parent_block_id content properties true).1
      ≠ (insert_block_request parent_block_id content properties false).1 ∧
    (insert_block_request parent_block_id content properties true).2
      = (insert_block_request parent_block_id content properties false).2 := by
  refine ⟨rfl, rfl, ?_, rfl⟩
  intro h
  simp [insert_block_request] at h

/-- C6: `move_block` sends the method `logseq.Editor.moveBlock` a
one-element argument list whose single entry is the record with exactly the
fields `srcUUID` (source id), `targetUUID` (target id) and `isChild`
(child-flag) — never positional arguments. -/
theorem move_block_structured_argument (block_id target_block_id : String)
    (as_child : Bool) :
    move_block_request block_id target_block_id as_child
      = ("logseq.Editor.moveBlock",
         [Json.obj [("srcUUID", Json.str block_id),
                    ("targetUUID", Json.str target_block_id),
                    ("isChild", Json.bool as_child)]]) ∧
    (move_block_request block_id target_block_id as_child).2.length = 1 :=
  ⟨rfl, rfl⟩

/-- C7, counterexample: a response with the non-2xx status 300 is not
caught by `raise_for_status` (which raises only for 4xx/5xx), so `call_api`
returns its parsed body verbatim instead of a sentinel failure object —
the returned value does not even carry an `error` key. -/
theorem call_api_status_300_returns_body :
    call_api_result (TransportOutcome.http 300 (Json.str "multiple choices"))
      = Json.str "multiple choices" ∧
    (call_api_result (TransportOutcome.http 300 (Json.str "multiple choices"))).hasKey
      "error" = false :=
  ⟨rfl, rfl⟩

/-- C7 (amended): `call_api` never raises across its boundary.  On HTTP
status 401 it returns the 401-hint sentinel; on a raised transport
exception it returns the sentinel with the exception's message; on a 4xx or
5xx status other than 401 it returns the sentinel with the `HTTPError`
message; on every other status (2xx, and also 3xx, which `raise_for_status`
does not raise on) it returns the parsed JSON body verbatim with no
unwrapping.  Every façade operation built on it yields a definite value on
the transport-failure sentinel. -/
theorem call_api_never_raises (status : Nat) (body : Json) (message : String) :
    call_api_result (TransportOutcome.http 401 body)
      = sentinel unauthorizedMessage ∧
    call_api_result (TransportOutcome.exn message) = sentinel message ∧
    (400 ≤ status → status < 600 → status ≠ 401 →
      call_api_result (TransportOutcome.http status body)
        = sentinel (httpErrorMessage status)) ∧
    (status < 400 ∨ 600 ≤ status →
      call_api_result (TransportOutcome.http status body) = body) ∧
    get_all_pages_normalize (sentinel message) = Json.arr [] ∧
    get_page_blocks_normalize (sentinel message) = Json.arr [] ∧
    get_page_linked_references_normalize (sentinel message) = Json.arr [] ∧
    get_page_normalize (sentinel message) = Json.null ∧
    get_block_normalize (sentinel message) = Json.null ∧
    search_blocks_normalize (sentinel message) = Json.arr [] ∧
    get_block_properties_normalize (sentinel message) = sentinel message ∧
    create_page_normalize (sentinel message) = sentinel message ∧
    delete_page_normalize (sentinel message) = sentinel message ∧
    create_block_normalize (sentinel message) = sentinel message ∧
    update_block_normalize (sentinel message) = sentinel message ∧
    insert_block_normalize (sentinel message) = sentinel message ∧
    move_block_normalize (sentinel message) = sentinel message ∧
    remove_block_normalize (sentinel message) = sentinel message := by
  refine ⟨rfl, rfl, ?_, ?_, rfl, rfl, rfl, rfl, rfl, rfl, rfl, rfl, rfl, rfl,
    rfl, rfl, rfl, rfl⟩
  · intro h1 h2 h3
    have hr : raiseForStatusRaises status = true := by
      simp [raiseForStatusRaises]
      omega
    simp [call_api_result, h3, hr]
  · intro h
    have h401 : status ≠ 401 := by omega
    have hr : raiseForStatusRaises status = false := by
      simp [raiseForStatusRaises]
      omega
    simp [call_api_result, h401, hr]

/-- C7, witness: a 500 response yields the sentinel with the `HTTPError`
message and a 200 response yields its body verbatim. -/
theorem call_api_never_raises_witness :
    call_api_result (TransportOutcome.http 500 (Json.str "oops"))
      = sentinel (httpErrorMessage 500) ∧
    call_api_result (TransportOutcome.http 200 (Json.str "payload"))
      = Json.str "payload" :=
  ⟨(call_api_never_raises 500 (Json.str "oops") "m").2.2.1
      (by decide) (by decide) (by decide),
   (call_api_never_raises 200 (Json.str "payload") "m").2.2.2.1
      (Or.inl (by decide))⟩

/-- C8, counterexample: `search_blocks` on the mapping `{"blocks": 7}`
returns `7`, which is not a list — the declared result shape of the search
operation is not independent of the RawResponse contents. -/
theorem search_blocks_shape_not_fixed :
    search_blocks_normalize (Json.obj [("blocks", Json.num 7)]) = Json.num 7 ∧
    (search_blocks_normalize (Json.obj [("blocks", Json.num 7)])).isList
      = false :=
  ⟨rfl, rfl⟩

/-- C8 (amended): every normalizer is a total function returning a value
for every RawResponse, but the declared result shape is guaranteed only
when the unwrapped payload conforms: the list-shaped operations return a
list provided any `"result"` value present is itself a list; `search_blocks`
returns a list provided any `"blocks"` or `"result"` value present is
itself a list; `get_page` and `get_block` return an object-or-absent value
provided the RawResponse is `null` or a mapping whose `"result"` value (if
any) is an object or `null`.  A nonconforming wrapped payload is passed
through unchanged; mutation results are opaque (unconstrained). -/
theorem normalizers_conditional_shape (r : Json) :
    ((r.hasKey "result" = true → (r.get "result").isList = true) →
      (get_all_pages_normalize r).isList = true ∧
      (get_page_blocks_normalize r).isList = true ∧
      (get_page_linked_references_normalize r).isList = true) ∧
    ((r.hasKey "blocks" = true → (r.get "blocks").isList = true) →
      (r.hasKey "result" = true → (r.get "result").isList = true) →
      (search_blocks_normalize r).isList = true) ∧
    (r.isObjOrNull = true →
      (r.hasKey "result" = true → (r.get "result").isObjOrNull = true) →
      (get_page_normalize r).isObjOrNull = true ∧
      (get_block_normalize r).isObjOrNull = true) := by
  cases r with
  | obj fields =>
    refine ⟨?_, ?_, ?_⟩
    · intro hres
      cases hr : lookupKey fields "result" with
      | some v =>
        have hv : v.isList = true := by
          have := hres (by simp [Json.hasKey, hr])
          simpa [Json.get, Json.getD, hr] using this
        refine ⟨?_, ?_, ?_⟩ <;>
          simpa [get_all_pages_normalize, get_page_blocks_normalize,
            get_page_linked_references_normalize, Json.isList, Json.isDict,
            Json.getD, hr] using hv
      | none =>
        refine ⟨?_, ?_, ?_⟩ <;>
          simp [get_all_pages_normalize, get_page_blocks_normalize,
            get_page_linked_references_normalize, Json.isList, Json.isDict,
            Json.getD, hr]
    · intro hblocks hres
      cases hb : lookupKey fields "blocks" with
      | some b =>
        have hv : b.isList = true := by
          have := hblocks (by simp [Json.hasKey, hb])
          simpa [Json.get, Json.getD, hb] using this
        simpa [search_blocks_normalize, Json.isNull, Json.isDict, Json.hasKey,
          Json.getD, hb] using hv
      | none =>
        cases hr : lookupKey fields "result" with
        | some v =>
          have hv : v.isList = true := by
            have := hres (by simp [Json.hasKey, hr])
            simpa [Json.get, Json.getD, hr] using this
          simpa [search_blocks_normalize, Json.isNull, Json.isDict, Json.hasKey,
            Json.getD, hb, hr] using hv
        | none =>
          cases he : lookupKey fields "error" with
          | some w =>
            simp [search_blocks_normalize, Json.isNull, Json.isDict, Json.isList,
              Json.hasKey, Json.getD, hb, hr, he]
          | none =>
            simp [search_blocks_normalize, Json.isNull, Json.isDict, Json.isList,
              Json.hasKey, Json.getD, hb, hr, he]
    · intro _ hres
      cases hr : lookupKey fields "result" with
      | some v =>
        have hv : v.isObjOrNull = true := by
          have := hres (by simp [Json.hasKey, hr])
          simpa [Json.get, Json.getD, hr] using this
        constructor
        · simpa [get_page_normalize, Json.isNull, Json.isDict, Json.hasKey,
            Json.get, Json.getD, hr] using hv
        · cases he : lookupKey fields "error" with
          | some w =>
            simp [get_block_normalize, Json.isNull, Json.isDict,
              Json.isObjOrNull, Json.hasKey, Json.get, Json.getD, hr, he]
          | none =>
            simpa [get_block_normalize, Json.isNull, Json.isDict, Json.hasKey,
              Json.get, Json.getD, hr, he] using hv
      | none =>
        cases he : lookupKey fields "error" with
        | some w =>
          constructor <;>
            simp [get_page_normalize, get_block_normalize, Json.isNull,
              Json.isDict, Json.isObjOrNull, Json.hasKey, Json.get, Json.getD,
              hr, he]
        | none =>
          constructor <;>
            simp [get_page_normalize, get_block_normalize, Json.isNull,
              Json.isDict, Json.isObjOrNull, Json.hasKey, Json.get, Json.getD,
              hr, he]
  | null => exact ⟨fun _ => ⟨rfl, rfl, rfl⟩, fun _ _ => rfl, fun _ _ => ⟨rfl, rfl⟩⟩
  | bool b =>
    exact ⟨fun _ => ⟨rfl, rfl, rfl⟩, fun _ _ => rfl, fun h => by simp [Json.isObjOrNull] at h⟩
  | num n =>
    exact ⟨fun _ => ⟨rfl, rfl, rfl⟩, fun _ _ => rfl, fun h => by simp [Json.isObjOrNull] at h⟩
  | str s =>
    exact ⟨fun _ => ⟨rfl, rfl, rfl⟩, fun _ _ => rfl, fun h => by simp [Json.isObjOrNull] at h⟩
  | arr xs =>
    exact ⟨fun _ => ⟨rfl, rfl, rfl⟩, fun _ _ => rfl, fun h => by simp [Json.isObjOrNull] at h⟩

/-- C8, witness: a wrapped list keeps `get_all_pages` list-shaped, and a
wrapped object keeps `get_page` object-or-absent. -/
theorem normalizers_conditional_shape_witness :
    (get_all_pages_normalize (Json.obj [("result", Json.arr [])])).isList
      = true ∧
    (get_page_normalize (Json.obj [("result", Json.obj [])])).isObjOrNull
      = true :=
  ⟨((normalizers_conditional_shape (Json.obj [("result", Json.arr [])])).1
      (fun _ => rfl)).1,
   ((normalizers_conditional_shape (Json.obj [("result", Json.obj [])])).2.2
      rfl (fun _ => rfl)).1⟩

/-- C9: for `create_page`, `create_block`, `update_block` and
`insert_block`, an empty properties mapping builds exactly the same remote
call (method and argument list) as no properties at all — Python's
`if properties:` is false for both `None` and `{}` — and the properties
entry is appended as the last argument exactly when the mapping is
non-empty. -/
theorem empty_properties_omitted (page_name content block_id parent : String)
    (p : String × Json) (ps : List (String × Json)) (before : Bool) :
    create_page_request page_name (some [])
      = create_page_request page_name none ∧
    create_block_request page_name content (some [])
      = create_block_request page_name content none ∧
    update_block_request block_id content (some [])
      = update_block_request block_id content none ∧
    insert_block_request parent content (some []) before
      = insert_block_request parent content none before ∧
    (create_page_request page_name none).2 = [Json.str page_name] ∧
    (create_page_request page_name (some (p :: ps))).2
      = [Json.str page_name, Json.obj (p :: ps)] ∧
    (create_block_request page_name content (some (p :: ps))).2
      = [Json.str page_name, Json.str content, Json.obj (p :: ps)] ∧
    (update_block_request block_id content (some (p :: ps))).2
      = [Json.str block_id, Json.str content, Json.obj (p :: ps)] ∧
    (insert_block_request parent content (some (p :: ps)) before).2
      = [Json.str parent, Json.str content, Json.obj (p :: ps)] :=
  ⟨rfl, rfl, rfl, rfl, rfl, rfl, rfl, rfl, rfl⟩

/-- C10: `get_block_properties` returns the `"result"` value of a mapping
containing that key; a mapping without `"result"` — including an error
sentinel — is returned unchanged; every non-mapping RawResponse (null, a
list, any other value) yields the empty mapping. -/
theorem get_block_properties_normalization (fields : List (String × Json))
    (r : Json) :
    (∀ v, lookupKey fields "result" = some v →
      get_block_properties_normalize (Json.obj fields) = v) ∧
    (lookupKey fields "result" = none →
      get_block_properties_normalize (Json.obj fields) = Json.obj fields) ∧
    (r.isDict = false → get_block_properties_normalize r = Json.obj []) ∧
    (∀ m, get_block_properties_normalize (sentinel m) = sentinel m) := by
  refine ⟨?_, ?_, ?_, fun m => rfl⟩
  · intro v hv
    simp [get_block_properties_normalize, Json.isDict, Json.hasKey, Json.getD, hv]
  · intro hv
    simp [get_block_properties_normalize, Json.isDict, Json.hasKey, Json.getD, hv]
  · intro hd
    simp [get_block_properties_normalize, Json.hasKey, hd]

/-- C10, witness: `{"result": {"a": 1}}` unwraps to `{"a": 1}`, and the
error sentinel passes through unchanged. -/
theorem get_block_properties_normalization_witness :
    get_block_properties_normalize
      (Json.obj [("result", Json.obj [("a", Json.num 1)])])
      = Json.obj [("a", Json.num 1)] ∧
    get_block_properties_normalize (sentinel "down") = sentinel "down" :=
  ⟨(get_block_properties_normalization
      [("result", Json.obj [("a", Json.num 1)])] Json.null).1
      (Json.obj [("a", Json.num 1)]) rfl,
   (get_block_properties_normalization [] Json.null).2.2.2 "down"⟩
